import Mathlib

/-!
Verification of the pulp_docker registry handler and schema transcoder.

The development shallowly embeds `src/pulp_docker/app/registry.py` and
`src/pulp_docker/app/tasks/tag.py`.  Django ORM lookups are modelled as list
operations over explicit state, Python exceptions as an error type threaded
through `Except`, and the aiohttp responses as an inductive `Response`.
`pulp_docker/constants.py` and `pulp_docker/app/docker_convert.py` are not
part of the source tree given here; they are modelled from the specification
(each such definition is marked `Modelled from the spec:` in its docstring).
-/

namespace PulpDocker

/-- Modelled from the spec: `pulp_docker/constants.py` (the MEDIA_TYPE
namespace imported by registry.py) is not under src/.  The spec names the
signed Schema-1 media type `application/vnd.docker.distribution.manifest.v1+prettyjws`
and the Schema-2 type `application/vnd.docker.distribution.manifest.v2+json`;
the unsigned Schema-1 and manifest-list types are the standard Docker ones. -/
def MEDIA_TYPE.MANIFEST_V1 : String :=
  "application/vnd.docker.distribution.manifest.v1+json"

/-- Modelled from the spec: the signed Schema-1 media type. -/
def MEDIA_TYPE.MANIFEST_V1_SIGNED : String :=
  "application/vnd.docker.distribution.manifest.v1+prettyjws"

/-- Modelled from the spec: the Schema-2 media type. -/
def MEDIA_TYPE.MANIFEST_V2 : String :=
  "application/vnd.docker.distribution.manifest.v2+json"

/-- Modelled from the spec: the manifest-list (fat manifest) media type. -/
def MEDIA_TYPE.MANIFEST_LIST : String :=
  "application/vnd.docker.distribution.manifest.list.v2+json"

/-- One entry of the Schema-2 `layers` sequence (a layer descriptor). -/
structure LayerDescriptor where
  mediaType : String
  size : Nat
  digest : String
deriving DecidableEq, Repr

/-- A parsed Schema-2 manifest JSON document, as consumed by
`Schema1ManifestBuilder.build` and the converter.  `digestKey` models the
value of a top-level `"digest"` key if the JSON object happens to contain
one (`manifest.get("digest")` in the source); a well-formed Schema-2
manifest has no such key, in which case it is `none`. -/
structure ManifestDoc where
  schemaVersion : Nat
  mediaType : String
  configDigest : String
  layers : List LayerDescriptor
  digestKey : Option String
deriving DecidableEq, Repr

/-- One entry of the config document's `history` sequence.  `empty_layer`
models the optional `"empty_layer": true` key (defaulting to false). -/
structure HistoryEntry where
  created_by : String
  empty_layer : Bool
deriving DecidableEq, Repr

/-- A parsed config-blob JSON document.  The runtime `config` and
`container_config` objects are carried as opaque serialized JSON text. -/
structure ConfigDoc where
  architecture : String
  os : String
  runtimeConfig : String
  container_config : String
  history : List HistoryEntry
  diff_ids : List String
deriving DecidableEq, Repr

/-- Left brace as text (used when serializing JSON documents). -/
def obr : String := "\x7b"

/-- Right brace as text. -/
def cbr : String := "\x7d"

/-- Comma-join a list of serialized fragments. -/
def joinComma (xs : List String) : String := String.intercalate "," xs

/-- Modelled from the spec: a deterministic digest of a string, standing in
for the content hash used to synthesize per-layer identifiers (§4.4 step 3:
identifiers are "content-derived, not random").  The claims settled against
it depend only on it being a function of exactly its input string. -/
def strHash (s : String) : Nat :=
  s.foldl (fun h c => (h * 131 + c.toNat) % (2 ^ 64)) 5381

/-- Modelled from the spec: the per-layer synthesized identifier, derived
deterministically from the chain position (the parent identifier) and the
layer digest (§4.4 step 3). -/
def chainId (parent : String) (layerDigest : String) : String :=
  toString (strHash (parent ++ "|" ++ layerDigest))

/-- One element of the synthesized identifier chain: a config history entry
together with its synthesized identifier and its parent identifier. -/
structure IdChainEntry where
  entry : HistoryEntry
  ident : String
  parent : String
deriving DecidableEq, Repr

/-- Modelled from the spec: walk the config's `history` entries in order,
assigning each a content-derived identifier chained through the previous
entry; non-empty entries consume the corresponding Schema-2 layer digest,
while `empty_layer` entries stay in the identifier chain without consuming
a layer (§4.4 steps 2-3). -/
def historyIdChain : String → List HistoryEntry → List String → List IdChainEntry
  | _, [], _ => []
  | parent, e :: rest, digests =>
    if e.empty_layer then
      let i := chainId parent "<empty>"
      ⟨e, i, parent⟩ :: historyIdChain i rest digests
    else
      match digests with
      | [] => []
      | d :: ds =>
        let i := chainId parent d
        ⟨e, i, parent⟩ :: historyIdChain i rest ds

/-- Modelled from the spec: one `v1Compatibility` blob (§4.4 step 2),
carrying the synthesized identifier, parent linkage, architecture/os, and —
for the top (most recent) entry only — the full runtime `config` and
`container_config` from the source config document. -/
def v1Compatibility (cfg : ConfigDoc) (e : IdChainEntry) (isTop : Bool) : String :=
  obr ++ "\"id\":\"" ++ e.ident ++ "\",\"parent\":\"" ++ e.parent
      ++ "\",\"architecture\":\"" ++ cfg.architecture
      ++ "\",\"os\":\"" ++ cfg.os
      ++ "\",\"created_by\":\"" ++ e.entry.created_by ++ "\""
      ++ (if isTop then
            ",\"config\":" ++ cfg.runtimeConfig
              ++ ",\"container_config\":" ++ cfg.container_config
          else "")
      ++ cbr

/-- Modelled from the spec: the Schema-1 `history` sequence — one
`v1Compatibility` string per non-empty layer, listed top-of-stack first,
with the runtime config attached only to the top entry (§4.4 step 2). -/
def compatList (cfg : ConfigDoc) (chain : List IdChainEntry) : List String :=
  match (chain.filter (fun e => ! e.entry.empty_layer)).reverse with
  | [] => []
  | top :: rest =>
    v1Compatibility cfg top true :: rest.map (fun e => v1Compatibility cfg e false)

/-- The transcoder state, mirroring the constructor call in
`Schema1ManifestBuilder.build` (registry.py line 296). -/
structure Converter_s2_to_s1 where
  manifest : ManifestDoc
  config : ConfigDoc
  namespace' : String
  repository : String
  tag : String
deriving DecidableEq, Repr

/-- Modelled from the spec: `pulp_docker/app/docker_convert.py` (class
`Converter_s2_to_s1`) is not under src/ — only its caller registry.py is.
Per §4.4: `fsLayers` is the reversed `layers` digest sequence, `history`
the synthesized `v1Compatibility` entries, the top-level fields are
`schemaVersion = 1`, `name` (namespace/repository, or just repository when
the namespace is empty), `tag` and the config's `architecture`, and a
fixed fabricated signature block is appended (§9: "source behavior used a
fixed ad-hoc signature").  String escaping of the embedded compatibility
JSON is not modelled. -/
def Converter_s2_to_s1.convert (c : Converter_s2_to_s1) : String :=
  let name := if c.namespace' = "" then c.repository
              else c.namespace' ++ "/" ++ c.repository
  let layerDigests := c.manifest.layers.map LayerDescriptor.digest
  let fsLayers := layerDigests.reverse
  let chain := historyIdChain "" c.config.history layerDigests
  let historyEntries := compatList c.config chain
  obr ++ "\"schemaVersion\":1,\"name\":\"" ++ name ++ "\",\"tag\":\"" ++ c.tag
      ++ "\",\"architecture\":\"" ++ c.config.architecture ++ "\",\"fsLayers\":["
      ++ joinComma (fsLayers.map (fun d => obr ++ "\"blobSum\":\"" ++ d ++ "\"" ++ cbr))
      ++ "],\"history\":["
      ++ joinComma (historyEntries.map
            (fun s => obr ++ "\"v1Compatibility\":\"" ++ s ++ "\"" ++ cbr))
      ++ "],\"signatures\":[" ++ obr
      ++ "\"header\":" ++ obr ++ "\"alg\":\"none\"" ++ cbr
      ++ ",\"protected\":\"fixed\",\"signature\":\"pulp-fixed-ad-hoc-signature\""
      ++ cbr ++ "]" ++ cbr

/-- The builder state (registry.py lines 287-290). -/
structure Schema1ManifestBuilder where
  tag : String
  namespace' : String
  repository : String
deriving DecidableEq, Repr

/-- registry.py lines 292-306: build the signed Schema-1 text and the
content identifier returned to `get_tag`.  Python truthiness of
`manifest.get("layers")` distinguishes a non-empty layers list; the
identifier is `manifest.get("layers")[0].get("digest")` in that case and
`manifest.get("digest")` (absent in a Schema-2 manifest, hence `none`)
otherwise. -/
def Schema1ManifestBuilder.build (b : Schema1ManifestBuilder)
    (manifest : ManifestDoc) (config : ConfigDoc) : String × Option String :=
  let converter : Converter_s2_to_s1 :=
    ⟨manifest, config, b.namespace', b.repository, b.tag⟩
  match manifest.layers with
  | l :: _ => (converter.convert, some l.digest)
  | [] => (converter.convert, manifest.digestKey)

/-- A stored artifact file (name and byte contents). -/
structure StoredFile where
  name : String
  contents : String
deriving DecidableEq, Repr

/-- A stored artifact together with what `json.loads` yields on its
contents: `none` models a file whose text is not valid JSON of the given
shape (`json.loads` raises `JSONDecodeError`). -/
structure Artifact (α : Type) where
  file : StoredFile
  loads : Option α
deriving DecidableEq, Repr

/-- A config blob content unit; `artifacts` models the `_artifacts`
related set (`.first()` is `head?`). -/
structure Blob where
  digest : String
  media_type : String
  artifacts : List (Artifact ConfigDoc)
deriving DecidableEq, Repr

/-- The platform descriptor of a manifest-list child (spec §4.3). -/
structure PlatformDescriptor where
  architecture : String
  os : String
deriving DecidableEq, Repr

/-- The columns of the Manifest content model used by the handler:
`digest`, `media_type`, the `config_blob` foreign key (nullable) and the
`_artifacts` related set holding the manifest's own JSON file. -/
structure ManifestCore where
  digest : String
  media_type : String
  config_blob : Option Blob
  artifacts : List (Artifact ManifestDoc)
deriving DecidableEq, Repr

/-- A Manifest content unit.  `listed` models the manifest-list children.
Modelled from the spec: `pulp_docker/app/models.py` is not under src/, so
the `ManifestListManifest` through-rows are taken from §4.3: each child of
the list carries one platform row; `manifest.manifest_lists.first()` is
that row and its `manifest_list` reference is the listed child manifest. -/
structure Manifest where
  core : ManifestCore
  listed : List (PlatformDescriptor × ManifestCore)
deriving DecidableEq, Repr

/-- Column accessor used throughout registry.py. -/
def Manifest.digest (m : Manifest) : String := m.core.digest

/-- Column accessor used throughout registry.py. -/
def Manifest.media_type (m : Manifest) : String := m.core.media_type

/-- A ManifestTag content unit: name, the tagged manifest, and the tag's
own `_artifacts` related set (the manifest file it serves). -/
structure Tag where
  name : String
  tagged_manifest : Manifest
  artifacts : List StoredFile
deriving DecidableEq, Repr

/-- Python exceptions that can escape the handler code. -/
inductive PyExc where
  | doesNotExist
  | multipleObjectsReturned
  | attributeError
  | jsonDecodeError
  | typeError
  | indexError
deriving DecidableEq, Repr

/-- How a request terminates abnormally: `pathNotResolved` is pulpcore's
`PathNotResolved` (translated to HTTP 404 by the surrounding handler),
`artifactNotFound` is registry.py's own `ArtifactNotFound` exception
(caught nowhere, hence not a 404), and `unhandled` is a raw Python
exception escaping the handler. -/
inductive RegistryErr where
  | pathNotResolved (msg : String)
  | artifactNotFound (msg : String)
  | unhandled (e : PyExc)
deriving DecidableEq, Repr

/-- The `response_headers` dict built in `get_tag`/`get_by_digest`
(`Docker-Content-Digest` can be Python `None` on the conversion path). -/
structure ResponseHeaders where
  content_type : String
  docker_content_digest : Option String
deriving DecidableEq, Repr

/-- The `full_headers` MultiDict built by `Registry._dispatch` (lines
88-95): content type, content digest, the constant API version,
`Content-Length` from the file size and a `Content-Disposition`
attachment naming the file. -/
structure FullHeaders where
  content_type : String
  docker_content_digest : Option String
  api_version : String
  content_length : Nat
  content_disposition : String
deriving DecidableEq, Repr

/-- registry.py lines 88-95. -/
def full_headers (h : ResponseHeaders) (file : StoredFile) : FullHeaders :=
  ⟨h.content_type, h.docker_content_digest, "registry/2.0",
   file.contents.length, "attachment; filename=" ++ file.name⟩

/-- The response sent to the client: a `web.FileResponse` streaming a
stored file, a `web.Response(text=...)` carrying a converted document, or
a `_stream_content_artifact` relay for remote-only content.  The stream
case carries no headers: registry.py line 230 passes a bare
`web.StreamResponse()` and the headers dict computed at lines 219-220 is
discarded on that path. -/
inductive Response where
  | fileResponse (file : StoredFile) (headers : FullHeaders)
  | textResponse (body : String) (headers : ResponseHeaders)
  | streamResponse (relative_path : String)
deriving DecidableEq, Repr

/-- The Content-Type header the handler set on a response (`none` for the
bare stream relay, which got no headers from the handler). -/
def Response.contentType : Response → Option String
  | .fileResponse _ h => some h.content_type
  | .textResponse _ h => some h.content_type
  | .streamResponse _ => none

/-- The Docker-Content-Digest header the handler set on a response
(`none` when the handler set no such header). -/
def Response.dockerContentDigest : Response → Option String
  | .fileResponse _ h => h.docker_content_digest
  | .textResponse _ h => h.docker_content_digest
  | .streamResponse _ => none

/-- Whether the response carries an in-memory converted document rather
than stored bytes. -/
def Response.isConverted : Response → Bool
  | .textResponse _ _ => true
  | _ => false

/-- Django `RelatedManager.get()` with no filter: exactly one object or an
exception. -/
def objectsGet {α : Type} (xs : List α) : Except PyExc α :=
  match xs with
  | [] => .error .doesNotExist
  | [x] => .ok x
  | _ => .error .multipleObjectsReturned

/-- registry.py lines 276-279: open the artifact's file and `json.loads`
it.  A `none` artifact models `.first()` having returned `None`
(attribute access on `None` raises `AttributeError`); a file that does
not parse raises `JSONDecodeError`.  Neither exception is caught by any
caller in registry.py. -/
def _get_json {α : Type} (artifact : Option (Artifact α)) : Except PyExc α :=
  match artifact with
  | none => .error .attributeError
  | some a =>
    match a.loads with
    | some doc => .ok doc
    | none => .error .jsonDecodeError

/-- registry.py lines 266-268: `manifest.config_blob._artifacts.first()`
(a null `config_blob` foreign key also raises `AttributeError`). -/
def _get_config_json (m : ManifestCore) : Except PyExc ConfigDoc :=
  match m.config_blob with
  | none => .error .attributeError
  | some blob => _get_json blob.artifacts.head?

/-- registry.py lines 271-273: `manifest._artifacts.first()`. -/
def _get_manifest_json (m : ManifestCore) : Except PyExc ManifestDoc :=
  _get_json m.artifacts.head?

/-- registry.py lines 256-263 helper: the `for`/`continue` loop body of
`_get_legacy_manifest` over the child rows. -/
def legacyScan : List (PlatformDescriptor × ManifestCore) → Option ManifestCore
  | [] => none
  | (pl, m) :: rest =>
    if pl.architecture ≠ "amd64" ∨ pl.os ≠ "linux" then legacyScan rest
    else some m

/-- registry.py lines 256-263: scan the manifest-list's children and
return the first whose platform row matches amd64/linux, else `None`. -/
def _get_legacy_manifest (tag : Tag) : Option ManifestCore :=
  legacyScan tag.tagged_manifest.listed

/-- The first component of `_convert_manifest`'s result tuple, which in
the Python is dynamically typed: `None` (line 244), the builder object
itself (line 240 returns `schema1_builder`, not the converted text), the
converted Schema-1 text (line 250), or the legacy child manifest served
without conversion (line 253). -/
inductive SchemaOut where
  | pyNone
  | builderObject (b : Schema1ManifestBuilder)
  | converted (s : String)
  | legacyManifest (m : ManifestCore)
deriving DecidableEq, Repr

/-- Python truthiness of the `converted` tuple component. -/
def pythonTruthy : Option Bool → Bool
  | none => false
  | some b => b

/-- registry.py lines 233-253.  The outer `Except` carries Python
exceptions raised while loading/parsing the config or manifest JSON; the
`Option` is `none` when the function falls off the end and returns a bare
`None` (media type neither Schema-2 nor manifest-list).  The second
component of the pair counts how many times `Schema1ManifestBuilder.build`
was invoked on the executed path. -/
def _convert_manifest (tag : Tag) (accepted_media_types : List String)
    (repository : String) :
    (Except PyExc (Option (SchemaOut × Option Bool × Option String))) × Nat :=
  let schema1_builder : Schema1ManifestBuilder := ⟨tag.name, "ignored", repository⟩
  if tag.tagged_manifest.media_type = MEDIA_TYPE.MANIFEST_V2 then
    match _get_config_json tag.tagged_manifest.core with
    | .error e => (.error e, 0)
    | .ok config =>
      match _get_manifest_json tag.tagged_manifest.core with
      | .error e => (.error e, 0)
      | .ok manifest =>
        let r := schema1_builder.build manifest config
        (.ok (some (.builderObject schema1_builder, some true, r.2)), 1)
  else if tag.tagged_manifest.media_type = MEDIA_TYPE.MANIFEST_LIST then
    match _get_legacy_manifest tag with
    | none => (.ok (some (.pyNone, none, none)), 0)
    | some legacy =>
      if legacy.media_type = MEDIA_TYPE.MANIFEST_V2
          ∧ legacy.media_type ∉ accepted_media_types then
        match _get_config_json legacy with
        | .error e => (.error e, 0)
        | .ok config =>
          match _get_manifest_json legacy with
          | .error e => (.error e, 0)
          | .ok manifest =>
            let r := schema1_builder.build manifest config
            (.ok (some (.converted r.1, some true, r.2)), 1)
      else
        (.ok (some (.legacyManifest legacy, some false, some legacy.digest)), 0)
  else
    (.ok none, 0)

/-- registry.py lines 180-201: `dispatch_tag` applied to a Tag.  A missing
artifact raises registry.py's own `ArtifactNotFound`; a multi-object
related set makes `.get()` raise. -/
def dispatch_tag (tag : Tag) (response_headers : ResponseHeaders) :
    Except RegistryErr Response :=
  match tag.artifacts with
  | [] => .error (.artifactNotFound tag.name)
  | [artifact] => .ok (.fileResponse artifact (full_headers response_headers artifact))
  | _ => .error (.unhandled .multipleObjectsReturned)

/-- `dispatch_tag` applied to the legacy child manifest (registry.py line
176 passes the `schema` value, a Manifest, where a Tag is expected): the
happy path serves the manifest's artifact file; the no-artifact error path
evaluates `tag.name` on a Manifest, which has no `name` attribute, so an
`AttributeError` escapes. -/
def dispatch_tag_manifest (m : ManifestCore) (response_headers : ResponseHeaders) :
    Except RegistryErr Response :=
  match m.artifacts with
  | [] => .error (.unhandled .attributeError)
  | [artifact] =>
    .ok (.fileResponse artifact.file (full_headers response_headers artifact.file))
  | _ => .error (.unhandled .multipleObjectsReturned)

/-- `dispatch_tag` on whatever dynamic value sits in `schema` when
`converted` is falsy; only a content object with `_artifacts` works. -/
def dispatch_tag_schema (schema : SchemaOut) (response_headers : ResponseHeaders) :
    Except RegistryErr Response :=
  match schema with
  | .legacyManifest m => dispatch_tag_manifest m response_headers
  | _ => .error (.unhandled .attributeError)

/-- registry.py lines 203-205: `web.Response(text=schema, ...)` — aiohttp
raises `TypeError` unless `text` is a `str`, so the builder object leaking
out of `_convert_manifest` line 240 is rejected here. -/
def dispatch_converted_schema1 (schema : SchemaOut)
    (response_headers : ResponseHeaders) : Except RegistryErr Response :=
  match schema with
  | .converted s => .ok (.textResponse s response_headers)
  | _ => .error (.unhandled .typeError)

/-- registry.py lines 156-178: the body of `get_tag` after the tag lookup
succeeded.  The second component counts `Schema1ManifestBuilder.build`
invocations. -/
def get_tag_resolved (tag : Tag) (path : String)
    (accepted_media_types : List String) : (Except RegistryErr Response) × Nat :=
  if tag.tagged_manifest.media_type = MEDIA_TYPE.MANIFEST_V1 then
    (dispatch_tag tag ⟨MEDIA_TYPE.MANIFEST_V1_SIGNED, some tag.tagged_manifest.digest⟩, 0)
  else if tag.tagged_manifest.media_type ∈ accepted_media_types then
    (dispatch_tag tag ⟨tag.tagged_manifest.media_type, some tag.tagged_manifest.digest⟩, 0)
  else
    match _convert_manifest tag accepted_media_types path with
    | (.error e, n) => (.error (.unhandled e), n)
    | (.ok none, n) => (.error (.unhandled .typeError), n)
    | (.ok (some (schema, converted, digest)), n) =>
      if schema = .pyNone then (.error (.pathNotResolved tag.name), n)
      else
        let response_headers : ResponseHeaders :=
          ⟨MEDIA_TYPE.MANIFEST_V1_SIGNED, digest⟩
        if pythonTruthy converted = false then
          (dispatch_tag_schema schema response_headers, n)
        else
          (dispatch_converted_schema1 schema response_headers, n)

/-- registry.py lines 123-178: `get_tag`.  The distribution match and the
request parsing are taken as the explicit arguments `version_tags` (the
ManifestTag content of the resolved repository version), `tag_name`,
`path` and `accepted_media_types`.  `Tag.objects.get(pk__in=..., name=...)`
is the unique-match lookup; only `ObjectDoesNotExist` is caught and
translated to `PathNotResolved`. -/
def get_tag (version_tags : List Tag) (tag_name : String) (path : String)
    (accepted_media_types : List String) : (Except RegistryErr Response) × Nat :=
  match version_tags.filter (fun t => t.name == tag_name) with
  | [] => (.error (.pathNotResolved tag_name), 0)
  | [tag] => get_tag_resolved tag path accepted_media_types
  | _ => (.error (.unhandled .multipleObjectsReturned), 0)

/-- A ContentArtifact row: the owning content unit's primary key, the
relative path it is stored under, the optional local artifact, and the
owning content's `media_type` and `digest` columns (read through
`ca.content.cast()`). -/
structure ContentArtifact where
  content_pk : Nat
  relative_path : String
  artifact : Option StoredFile
  content_media_type : String
  content_digest : String
deriving DecidableEq, Repr

/-- registry.py lines 207-230: `get_by_digest`.  The global
ContentArtifact table is filtered to rows whose content is in the resolved
repository version and whose relative path equals the requested digest.
A unique row with a local artifact is served via `_dispatch` with
Content-Type and Docker-Content-Digest taken from the stored content;
a remote-only row is relayed through `_stream_content_artifact` with a
bare `web.StreamResponse()` (line 230) — the headers dict computed at
lines 219-220 is discarded on that path. -/
def get_by_digest (content_artifacts : List ContentArtifact)
    (version_content : List Nat) (path : String) (digest_match : String) :
    Except RegistryErr Response :=
  match content_artifacts.filter
      (fun ca => version_content.contains ca.content_pk
                 && ca.relative_path == ("sha256:" ++ digest_match)) with
  | [] => .error (.pathNotResolved path)
  | [ca] =>
    (match ca.artifact with
     | some artifact =>
       .ok (.fileResponse artifact
         (full_headers ⟨ca.content_media_type, some ca.content_digest⟩ artifact))
     | none =>
       .ok (.streamResponse ca.relative_path))
  | _ => .error (.unhandled .multipleObjectsReturned)

/-- Whether a character is ASCII whitespace (what Python `bytes.strip`
removes). -/
def isAsciiSpace (c : Char) : Bool :=
  c = ' ' || c = '\t' || c = '\n' || c = '\r' || c = '\x0b' || c = '\x0c'

/-- Python `bytes.strip()`: drop ASCII whitespace from both ends. -/
def pyStrip (s : String) : String :=
  String.mk (((s.data.dropWhile isAsciiSpace).reverse.dropWhile isAsciiSpace).reverse)

/-- Python `bytes.split(b",")` over the character list: split on every
comma, keeping empty pieces. -/
def splitCommaChars : List Char → List Char → List String
  | [], acc => [String.mk acc.reverse]
  | c :: rest, acc =>
    if c = ',' then String.mk acc.reverse :: splitCommaChars rest []
    else splitCommaChars rest (c :: acc)

/-- Python `values.split(b",")`. -/
def splitComma (s : String) : List String :=
  splitCommaChars s.data []

/-- registry.py lines 40-57: `get_accepted_media_types` — every raw header
occurrence whose name is exactly `Accept` is split on commas, each piece
stripped of surrounding whitespace, and the pieces appended in
header-occurrence order. -/
def get_accepted_media_types (raw_headers : List (String × String)) : List String :=
  raw_headers.foldl
    (fun accepted hv =>
      if hv.1 = "Accept" then accepted ++ (splitComma hv.2).map pyStrip
      else accepted)
    []

/-- tasks/tag.py lines 5-42: `tag_image`.  `manifest._artifacts.all()[0]`
raises `IndexError` on an artifact-less manifest; otherwise the new
repository version is the old content minus every same-name ManifestTag
pointing to a different manifest (`filter(name=tag).exclude(tagged_manifest
=manifest)` removed via `remove_content`), plus the `get_or_create`d tag
object for (name, manifest) added via `add_content` (a no-op when already
present).  ORM object identity is compared through the model fields. -/
def tag_image (version_tags : List Tag) (tag : String) (manifest : Manifest) :
    Except PyExc (List Tag) :=
  match manifest.core.artifacts.head? with
  | none => .error .indexError
  | some artifact =>
    if (version_tags.filter
        (fun t => ! (t.name == tag && t.tagged_manifest != manifest))).any
          (fun t => t.name == tag && t.tagged_manifest == manifest) then
      .ok (version_tags.filter
        (fun t => ! (t.name == tag && t.tagged_manifest != manifest)))
    else
      .ok (version_tags.filter
        (fun t => ! (t.name == tag && t.tagged_manifest != manifest))
        ++ [⟨tag, manifest, [artifact.file]⟩])

/-- The per-version tag-uniqueness invariant: no two tags of the version
share a name (spec §3: "tag lookups by (repository-version, name) must be
unambiguous"). -/
def tagNameUnique (version_tags : List Tag) : Prop :=
  (version_tags.map Tag.name).Nodup

/-- Name uniqueness of a concrete version is decidable. -/
instance (version_tags : List Tag) : Decidable (tagNameUnique version_tags) :=
  inferInstanceAs (Decidable ((version_tags.map Tag.name).Nodup))

/-- Equality of `Except` results is decidable (used to evaluate the
handlers at concrete states). -/
instance {ε α : Type} [DecidableEq ε] [DecidableEq α] : DecidableEq (Except ε α) := fun x y =>
  match x, y with
  | .error a, .error b =>
    if h : a = b then isTrue (congrArg Except.error h)
    else isFalse (fun he => h (Except.error.inj he))
  | .ok a, .ok b =>
    if h : a = b then isTrue (congrArg Except.ok h)
    else isFalse (fun he => h (Except.ok.inj he))
  | .error _, .ok _ => isFalse (fun he => Except.noConfusion he)
  | .ok _, .error _ => isFalse (fun he => Except.noConfusion he)

/-! Concrete test fixtures used by the witnesses and counterexamples. -/

/-- A config document fixture. -/
def cfgFix : ConfigDoc := ⟨"amd64", "linux", "42", "43", [⟨"cmd", false⟩], ["sha256:d1"]⟩

/-- A config-blob artifact whose file parses to `cfgFix`. -/
def cfgArtFix : Artifact ConfigDoc := ⟨⟨"cfgfile", "cfgbytes"⟩, some cfgFix⟩

/-- A config blob with a local, parseable artifact. -/
def cfgBlobFix : Blob := ⟨"sha256:cfg", "application/octet-stream", [cfgArtFix]⟩

/-- A Schema-2 manifest document with no layers and a top-level `digest`
key valued `sha256:aaa`. -/
def mEmptyA : ManifestDoc := ⟨2, MEDIA_TYPE.MANIFEST_V2, "sha256:cfg", [], some "sha256:aaa"⟩

/-- Identical to `mEmptyA` except the top-level `digest` key is
`sha256:bbb`. -/
def mEmptyB : ManifestDoc := ⟨2, MEDIA_TYPE.MANIFEST_V2, "sha256:cfg", [], some "sha256:bbb"⟩

/-- A Schema-2 manifest document with two layers. -/
def mLayersFix : ManifestDoc :=
  ⟨2, MEDIA_TYPE.MANIFEST_V2, "sha256:cfg",
   [⟨"tar", 5, "sha256:L1"⟩, ⟨"tar", 6, "sha256:L2"⟩], none⟩

/-- A builder fixture. -/
def bldrFix : Schema1ManifestBuilder := ⟨"latest", "ignored", "library/busybox"⟩

/-- A stored file fixture. -/
def fileFix : StoredFile := ⟨"f", "body"⟩

/-- A Schema-2 child manifest whose config blob and own JSON both load. -/
def childCoreFix : ManifestCore :=
  ⟨"sha256:child", MEDIA_TYPE.MANIFEST_V2, some cfgBlobFix,
   [⟨⟨"mfile", "mbytes"⟩, some mLayersFix⟩]⟩

/-- A manifest list whose single child matches amd64/linux. -/
def listManifestFix : Manifest :=
  ⟨⟨"sha256:list", MEDIA_TYPE.MANIFEST_LIST, none, []⟩,
   [(⟨"amd64", "linux"⟩, childCoreFix)]⟩

/-- A tag pointing at `listManifestFix`. -/
def tagListFix : Tag := ⟨"latest", listManifestFix, []⟩

/-- A Schema-2 manifest content unit whose config blob has no local
artifact. -/
def noCfgArtCoreFix : ManifestCore :=
  ⟨"sha256:m", MEDIA_TYPE.MANIFEST_V2,
   some ⟨"sha256:cfg", "application/octet-stream", []⟩, []⟩

/-- A tag pointing at `noCfgArtCoreFix`. -/
def tagNoCfgFix : Tag := ⟨"latest", ⟨noCfgArtCoreFix, []⟩, []⟩

/-- A stored signed Schema-1 manifest content unit. -/
def signedCoreFix : ManifestCore := ⟨"sha256:s", MEDIA_TYPE.MANIFEST_V1_SIGNED, none, []⟩

/-- A tag pointing at the stored signed Schema-1 manifest, with a local
artifact. -/
def tagSignedFix : Tag := ⟨"t", ⟨signedCoreFix, []⟩, [fileFix]⟩

/-- An unsigned Schema-1 manifest content unit. -/
def v1CoreFix : ManifestCore := ⟨"sha256:v1", MEDIA_TYPE.MANIFEST_V1, none, []⟩

/-- A tag pointing at the unsigned Schema-1 manifest, with a local
artifact. -/
def tagV1Fix : Tag := ⟨"t", ⟨v1CoreFix, []⟩, [fileFix]⟩

/-- A tag pointing directly at the convertible Schema-2 manifest
`childCoreFix`, with a local artifact of its own. -/
def tagV2Fix : Tag := ⟨"latest", ⟨childCoreFix, []⟩, [fileFix]⟩

/-- A Schema-2 child listed only under an arm platform row. -/
def armChildFix : ManifestCore := ⟨"sha256:armchild", MEDIA_TYPE.MANIFEST_V2, none, []⟩

/-- A manifest list with no amd64/linux child. -/
def listNoAmdFix : Manifest :=
  ⟨⟨"sha256:list2", MEDIA_TYPE.MANIFEST_LIST, none, []⟩, [(⟨"arm", "linux"⟩, armChildFix)]⟩

/-- A tag pointing at the manifest list with no amd64/linux child. -/
def tagListNoAmdFix : Tag := ⟨"v", listNoAmdFix, []⟩

/-- A Schema-1 child manifest with a local artifact. -/
def s1ChildFix : ManifestCore :=
  ⟨"sha256:s1child", MEDIA_TYPE.MANIFEST_V1, none, [⟨⟨"cfile", "cbytes"⟩, none⟩]⟩

/-- A manifest list whose amd64/linux child is the Schema-1 child. -/
def listS1Fix : Manifest :=
  ⟨⟨"sha256:listB", MEDIA_TYPE.MANIFEST_LIST, none, []⟩, [(⟨"amd64", "linux"⟩, s1ChildFix)]⟩

/-- A tag pointing at `listS1Fix`. -/
def tagListS1Fix : Tag := ⟨"w", listS1Fix, []⟩

/-- A ContentArtifact row for an unsigned Schema-1 manifest stored at its
digest path, with a local artifact, owned by content unit 1. -/
def caV1Fix : ContentArtifact :=
  ⟨1, "sha256:dd", some fileFix, MEDIA_TYPE.MANIFEST_V1, "sha256:dd"⟩

/-- A ContentArtifact row matching the digest path but owned by content
unit 7, which is not in the queried repository version. -/
def caOutFix : ContentArtifact :=
  ⟨7, "sha256:dd", some fileFix, "application/octet-stream", "sha256:dd"⟩

/-- A remote-only ContentArtifact row (no local artifact) in version
content unit 3. -/
def caRemoteFix : ContentArtifact :=
  ⟨3, "sha256:ee", none, "application/octet-stream", "sha256:ee"⟩

/-- A manifest fixture tagged in the old version. -/
def mAFix : Manifest :=
  ⟨⟨"sha256:A", MEDIA_TYPE.MANIFEST_V2, none, [⟨⟨"fa", "xa"⟩, none⟩]⟩, []⟩

/-- A different manifest fixture to retag the same name to. -/
def mBFix : Manifest :=
  ⟨⟨"sha256:B", MEDIA_TYPE.MANIFEST_V2, none, [⟨⟨"fb", "xb"⟩, none⟩]⟩, []⟩

/-- The old version's single tag, pointing at `mAFix`. -/
def tOldAFix : Tag := ⟨"latest", mAFix, [⟨"fa", "xa"⟩]⟩

/-- The specification-side reading of the Accept parser: exactly the
byte-for-byte `Accept` occurrences contribute, each split on commas and
whitespace-trimmed, concatenated in header-occurrence order. -/
def acceptedSpec (raw_headers : List (String × String)) : List String :=
  ((raw_headers.filter (fun hv => hv.1 == "Accept")).map
    (fun hv => (splitComma hv.2).map pyStrip)).flatten

/-! Helper facts about the media-type constants. -/

/-- The signed and unsigned Schema-1 media types differ. -/
theorem signed_ne_v1 : MEDIA_TYPE.MANIFEST_V1_SIGNED ≠ MEDIA_TYPE.MANIFEST_V1 := by decide

/-- Schema-2 is not unsigned Schema-1. -/
theorem v2_ne_v1 : MEDIA_TYPE.MANIFEST_V2 ≠ MEDIA_TYPE.MANIFEST_V1 := by decide

/-- The manifest-list type is not unsigned Schema-1. -/
theorem list_ne_v1 : MEDIA_TYPE.MANIFEST_LIST ≠ MEDIA_TYPE.MANIFEST_V1 := by decide

/-- The manifest-list type is not Schema-2. -/
theorem list_ne_v2 : MEDIA_TYPE.MANIFEST_LIST ≠ MEDIA_TYPE.MANIFEST_V2 := by decide

/-- The tag lookup of `get_tag` reduces to the resolved body once the
version's tags filter to a single match. -/
theorem get_tag_eq_resolved (version_tags : List Tag) (tag_name path : String)
    (accepted : List String) (tag : Tag)
    (h : version_tags.filter (fun t => t.name == tag_name) = [tag]) :
    get_tag version_tags tag_name path accepted = get_tag_resolved tag path accepted := by
  unfold get_tag
  rw [h]

/-- C1: the content identifier `Schema1ManifestBuilder.build` hands to
`get_tag` for the `Docker-Content-Digest` header is not the hash of the
canonical signed bytes of the produced Schema-1 document, nor any function
of those bytes: two Schema-2 inputs producing the identical signed
document receive different identifiers, the identifier is simply the
first source layer's digest when layers are non-empty, and a full
`get_tag` conversion reports that first-layer digest as the header. -/
theorem build_digest_not_hash_of_signed_bytes :
    (bldrFix.build mEmptyA cfgFix).1 = (bldrFix.build mEmptyB cfgFix).1
    ∧ (bldrFix.build mEmptyA cfgFix).2 ≠ (bldrFix.build mEmptyB cfgFix).2
    ∧ (∀ hash : String → Option String,
        ¬ (hash (bldrFix.build mEmptyA cfgFix).1 = (bldrFix.build mEmptyA cfgFix).2
           ∧ hash (bldrFix.build mEmptyB cfgFix).1 = (bldrFix.build mEmptyB cfgFix).2))
    ∧ (bldrFix.build mLayersFix cfgFix).2 = some "sha256:L1"
    ∧ ((get_tag [tagListFix] "latest" "library/busybox" []).1.toOption.map
         Response.dockerContentDigest) = some (some "sha256:L1") := by
  refine ⟨rfl, by decide, ?_, rfl, by decide⟩
  intro hash h
  have hsame : (bldrFix.build mEmptyA cfgFix).1 = (bldrFix.build mEmptyB cfgFix).1 := rfl
  have : (bldrFix.build mEmptyA cfgFix).2 = (bldrFix.build mEmptyB cfgFix).2 :=
    h.1.symm.trans (hsame ▸ h.2)
  exact absurd this (by decide)

/-- C2 counterexample: a Schema-2 tagged manifest whose config blob cannot
be located as a local artifact makes `get_tag` fail with an uncaught
`AttributeError`, not with `PathNotResolved` (the 404 signal). -/
theorem conversion_failure_not_notfound_counterexample :
    (get_tag [tagNoCfgFix] "latest" "library/busybox" []).1
      = .error (.unhandled .attributeError) := by decide

/-- The signed Schema-1 type is not Schema-2. -/
theorem signed_ne_v2 : MEDIA_TYPE.MANIFEST_V1_SIGNED ≠ MEDIA_TYPE.MANIFEST_V2 := by decide

/-- The signed Schema-1 type is not the manifest-list type. -/
theorem signed_ne_list : MEDIA_TYPE.MANIFEST_V1_SIGNED ≠ MEDIA_TYPE.MANIFEST_LIST := by decide

/-- C2 (amended): when the config or manifest blob of a manifest requiring
conversion cannot be located as a local artifact or parsed as JSON, the
Python exception propagates out of `get_tag` unhandled — it is not
translated into NotFound; only a manifest-list with no platform-matching
child is surfaced as `PathNotResolved` (404). -/
theorem conversion_failure_propagates_unhandled :
    (∀ (tag : Tag) (path : String) (accepted : List String) (e : PyExc),
      tag.tagged_manifest.media_type = MEDIA_TYPE.MANIFEST_V2 →
      tag.tagged_manifest.media_type ∉ accepted →
      (_get_config_json tag.tagged_manifest.core = .error e ∨
        (_get_manifest_json tag.tagged_manifest.core = .error e ∧
          ∃ c, _get_config_json tag.tagged_manifest.core = .ok c)) →
      (get_tag_resolved tag path accepted).1 = .error (.unhandled e))
    ∧ (∀ (tag : Tag) (path : String) (accepted : List String)
          (legacy : ManifestCore) (e : PyExc),
      tag.tagged_manifest.media_type = MEDIA_TYPE.MANIFEST_LIST →
      tag.tagged_manifest.media_type ∉ accepted →
      _get_legacy_manifest tag = some legacy →
      legacy.media_type = MEDIA_TYPE.MANIFEST_V2 →
      legacy.media_type ∉ accepted →
      (_get_config_json legacy = .error e ∨
        (_get_manifest_json legacy = .error e ∧ ∃ c, _get_config_json legacy = .ok c)) →
      (get_tag_resolved tag path accepted).1 = .error (.unhandled e))
    ∧ (∀ (tag : Tag) (path : String) (accepted : List String),
      tag.tagged_manifest.media_type = MEDIA_TYPE.MANIFEST_LIST →
      tag.tagged_manifest.media_type ∉ accepted →
      _get_legacy_manifest tag = none →
      (get_tag_resolved tag path accepted).1 = .error (.pathNotResolved tag.name)) := by
  refine ⟨?_, ?_, ?_⟩
  · intro tag path accepted e hm hna hfail
    have h1 : ¬ tag.tagged_manifest.media_type = MEDIA_TYPE.MANIFEST_V1 := by
      rw [hm]; exact v2_ne_v1
    simp only [get_tag_resolved, if_neg h1, if_neg hna, _convert_manifest, if_pos hm]
    rcases hfail with hcfg | ⟨hman, c, hcfg⟩
    · rw [hcfg]
    · rw [hcfg, hman]
  · intro tag path accepted legacy e hm hna hleg hlm hlna hfail
    have h1 : ¬ tag.tagged_manifest.media_type = MEDIA_TYPE.MANIFEST_V1 := by
      rw [hm]; exact list_ne_v1
    have h2 : ¬ tag.tagged_manifest.media_type = MEDIA_TYPE.MANIFEST_V2 := by
      rw [hm]; exact list_ne_v2
    simp only [get_tag_resolved, if_neg h1, if_neg hna, _convert_manifest,
      if_neg h2, if_pos hm, hleg]
    rw [if_pos ⟨hlm, hlna⟩]
    rcases hfail with hcfg | ⟨hman, c, hcfg⟩
    · rw [hcfg]
    · rw [hcfg, hman]
  · intro tag path accepted hm hna hleg
    have h1 : ¬ tag.tagged_manifest.media_type = MEDIA_TYPE.MANIFEST_V1 := by
      rw [hm]; exact list_ne_v1
    have h2 : ¬ tag.tagged_manifest.media_type = MEDIA_TYPE.MANIFEST_V2 := by
      rw [hm]; exact list_ne_v2
    simp only [get_tag_resolved, if_neg h1, if_neg hna, _convert_manifest,
      if_neg h2, if_pos hm, hleg, if_true]

/-- C2 witness: the amended theorem applied to the concrete state with a
locatable-artifact-less config blob. -/
theorem conversion_failure_propagates_unhandled_witness :
    tagNoCfgFix.tagged_manifest.media_type = MEDIA_TYPE.MANIFEST_V2
    ∧ tagNoCfgFix.tagged_manifest.media_type ∉ ([] : List String)
    ∧ _get_config_json tagNoCfgFix.tagged_manifest.core = .error .attributeError
    ∧ (get_tag_resolved tagNoCfgFix "library/busybox" []).1
        = .error (.unhandled .attributeError) :=
  ⟨rfl, by decide, rfl,
   conversion_failure_propagates_unhandled.1 tagNoCfgFix "library/busybox" []
     .attributeError rfl (by decide) (.inl rfl)⟩

/-- C4 counterexample: a stored *signed* Schema-1 manifest requested by a
client that does not accept its media type is not served directly —
`_convert_manifest` falls off the end, returning a bare `None`, and the
tuple unpacking in `get_tag` raises an uncaught `TypeError`. -/
theorem signed_schema1_not_accepted_crashes :
    (get_tag [tagSignedFix] "t" "p" []).1 = .error (.unhandled .typeError) := by decide

/-- C4 (amended): an *unsigned* Schema-1 tagged manifest is always served
directly, regardless of the accepted media types, with the response
Content-Type forced to the signed Schema-1 media type; a stored *signed*
Schema-1 manifest is served directly (with its own, signed, media type)
only when the client accepts it, and otherwise `get_tag` fails with an
uncaught `TypeError` instead of serving it. -/
theorem schema1_dispatch_rules :
    (∀ (version_tags : List Tag) (tag_name path : String) (accepted : List String)
        (tag : Tag) (a : StoredFile),
      version_tags.filter (fun t => t.name == tag_name) = [tag] →
      tag.tagged_manifest.media_type = MEDIA_TYPE.MANIFEST_V1 →
      tag.artifacts = [a] →
      get_tag version_tags tag_name path accepted =
        (.ok (.fileResponse a (full_headers
          ⟨MEDIA_TYPE.MANIFEST_V1_SIGNED, some tag.tagged_manifest.digest⟩ a)), 0))
    ∧ (∀ (version_tags : List Tag) (tag_name path : String) (accepted : List String)
        (tag : Tag) (a : StoredFile),
      version_tags.filter (fun t => t.name == tag_name) = [tag] →
      tag.tagged_manifest.media_type = MEDIA_TYPE.MANIFEST_V1_SIGNED →
      tag.tagged_manifest.media_type ∈ accepted →
      tag.artifacts = [a] →
      get_tag version_tags tag_name path accepted =
        (.ok (.fileResponse a (full_headers
          ⟨MEDIA_TYPE.MANIFEST_V1_SIGNED, some tag.tagged_manifest.digest⟩ a)), 0))
    ∧ (∀ (version_tags : List Tag) (tag_name path : String) (accepted : List String)
        (tag : Tag),
      version_tags.filter (fun t => t.name == tag_name) = [tag] →
      tag.tagged_manifest.media_type = MEDIA_TYPE.MANIFEST_V1_SIGNED →
      tag.tagged_manifest.media_type ∉ accepted →
      get_tag version_tags tag_name path accepted = (.error (.unhandled .typeError), 0)) := by
  refine ⟨?_, ?_, ?_⟩
  · intro version_tags tag_name path accepted tag a hfilter hm hart
    rw [get_tag_eq_resolved version_tags tag_name path accepted tag hfilter]
    simp only [get_tag_resolved, if_pos hm, dispatch_tag, hart]
  · intro version_tags tag_name path accepted tag a hfilter hm hacc hart
    have hacc' : MEDIA_TYPE.MANIFEST_V1_SIGNED ∈ accepted := by rw [← hm]; exact hacc
    rw [get_tag_eq_resolved version_tags tag_name path accepted tag hfilter]
    simp [get_tag_resolved, hm, signed_ne_v1, hacc', dispatch_tag, hart]
  · intro version_tags tag_name path accepted tag hfilter hm hna
    have h1 : ¬ tag.tagged_manifest.media_type = MEDIA_TYPE.MANIFEST_V1 := by
      rw [hm]; exact signed_ne_v1
    have h2 : ¬ tag.tagged_manifest.media_type = MEDIA_TYPE.MANIFEST_V2 := by
      rw [hm]; exact signed_ne_v2
    have h3 : ¬ tag.tagged_manifest.media_type = MEDIA_TYPE.MANIFEST_LIST := by
      rw [hm]; exact signed_ne_list
    rw [get_tag_eq_resolved version_tags tag_name path accepted tag hfilter]
    simp only [get_tag_resolved, if_neg h1, if_neg hna, _convert_manifest,
      if_neg h2, if_neg h3]

/-- C4 witness: the amended theorem applied to a concrete unsigned
Schema-1 tag with an empty accepted list. -/
theorem schema1_dispatch_rules_witness :
    [tagV1Fix].filter (fun t => t.name == "t") = [tagV1Fix]
    ∧ tagV1Fix.tagged_manifest.media_type = MEDIA_TYPE.MANIFEST_V1
    ∧ tagV1Fix.artifacts = [fileFix]
    ∧ get_tag [tagV1Fix] "t" "p" [] =
        (.ok (.fileResponse fileFix (full_headers
          ⟨MEDIA_TYPE.MANIFEST_V1_SIGNED, some tagV1Fix.tagged_manifest.digest⟩ fileFix)), 0) :=
  ⟨by decide, rfl, rfl,
   schema1_dispatch_rules.1 [tagV1Fix] "t" "p" [] tagV1Fix fileFix (by decide) rfl rfl⟩

/-- C5: for a tagged Schema-2 manifest, if the Schema-2 media type is
among the accepted media types the stored manifest is served directly
with Content-Type equal to that media type and zero transcoder (`build`)
invocations; if it is not accepted, and its config and manifest JSON
load, the transcoder is invoked exactly once. -/
theorem schema2_negotiation :
    (∀ (version_tags : List Tag) (tag_name path : String) (accepted : List String)
        (tag : Tag) (a : StoredFile),
      version_tags.filter (fun t => t.name == tag_name) = [tag] →
      tag.tagged_manifest.media_type = MEDIA_TYPE.MANIFEST_V2 →
      tag.tagged_manifest.media_type ∈ accepted →
      tag.artifacts = [a] →
      get_tag version_tags tag_name path accepted =
        (.ok (.fileResponse a (full_headers
          ⟨MEDIA_TYPE.MANIFEST_V2, some tag.tagged_manifest.digest⟩ a)), 0))
    ∧ (∀ (version_tags : List Tag) (tag_name path : String) (accepted : List String)
        (tag : Tag) (c : ConfigDoc) (m : ManifestDoc),
      version_tags.filter (fun t => t.name == tag_name) = [tag] →
      tag.tagged_manifest.media_type = MEDIA_TYPE.MANIFEST_V2 →
      tag.tagged_manifest.media_type ∉ accepted →
      _get_config_json tag.tagged_manifest.core = .ok c →
      _get_manifest_json tag.tagged_manifest.core = .ok m →
      (get_tag version_tags tag_name path accepted).2 = 1) := by
  constructor
  · intro version_tags tag_name path accepted tag a hfilter hm hacc hart
    have hacc' : MEDIA_TYPE.MANIFEST_V2 ∈ accepted := by rw [← hm]; exact hacc
    rw [get_tag_eq_resolved version_tags tag_name path accepted tag hfilter]
    simp [get_tag_resolved, hm, v2_ne_v1, hacc', dispatch_tag, hart]
  · intro version_tags tag_name path accepted tag c m hfilter hm hna hcfg hman
    have hna' : MEDIA_TYPE.MANIFEST_V2 ∉ accepted := by rw [← hm]; exact hna
    rw [get_tag_eq_resolved version_tags tag_name path accepted tag hfilter]
    simp [get_tag_resolved, hm, v2_ne_v1, hna', _convert_manifest, hcfg, hman,
      dispatch_converted_schema1, pythonTruthy]

/-- C5 witness: the negotiation theorem applied to `tagV2Fix`, once with
the Schema-2 type accepted (direct dispatch, zero conversions) and once
with nothing accepted (exactly one transcoder invocation). -/
theorem schema2_negotiation_witness :
    [tagV2Fix].filter (fun t => t.name == "latest") = [tagV2Fix]
    ∧ tagV2Fix.tagged_manifest.media_type = MEDIA_TYPE.MANIFEST_V2
    ∧ tagV2Fix.tagged_manifest.media_type ∈ [MEDIA_TYPE.MANIFEST_V2]
    ∧ tagV2Fix.artifacts = [fileFix]
    ∧ get_tag [tagV2Fix] "latest" "library/busybox" [MEDIA_TYPE.MANIFEST_V2] =
        (.ok (.fileResponse fileFix (full_headers
          ⟨MEDIA_TYPE.MANIFEST_V2, some tagV2Fix.tagged_manifest.digest⟩ fileFix)), 0)
    ∧ tagV2Fix.tagged_manifest.media_type ∉ ([] : List String)
    ∧ _get_config_json tagV2Fix.tagged_manifest.core = .ok cfgFix
    ∧ _get_manifest_json tagV2Fix.tagged_manifest.core = .ok mLayersFix
    ∧ (get_tag [tagV2Fix] "latest" "library/busybox" []).2 = 1 :=
  ⟨by decide, rfl, by decide, rfl,
   schema2_negotiation.1 [tagV2Fix] "latest" "library/busybox" [MEDIA_TYPE.MANIFEST_V2]
     tagV2Fix fileFix (by decide) rfl (by decide) rfl,
   by decide, rfl, rfl,
   schema2_negotiation.2 [tagV2Fix] "latest" "library/busybox" []
     tagV2Fix cfgFix mLayersFix (by decide) rfl (by decide) rfl rfl⟩

/-- C6: the child selection of `_get_legacy_manifest` returns exactly the
first listed child whose platform row matches amd64/linux (never any
other platform), and a manifest-list with no such child makes `get_tag`
raise `PathNotResolved` (the 404 signal), not an unhandled fault. -/
theorem manifest_list_child_selection :
    (∀ rows : List (PlatformDescriptor × ManifestCore),
      legacyScan rows =
        (rows.find? (fun pm => pm.1.architecture == "amd64" && pm.1.os == "linux")).map
          Prod.snd)
    ∧ (∀ (tag : Tag) (m : ManifestCore), _get_legacy_manifest tag = some m →
        ∃ pm ∈ tag.tagged_manifest.listed,
          pm.1.architecture = "amd64" ∧ pm.1.os = "linux" ∧ pm.2 = m)
    ∧ (∀ (version_tags : List Tag) (tag_name path : String) (accepted : List String)
          (tag : Tag),
        version_tags.filter (fun t => t.name == tag_name) = [tag] →
        tag.tagged_manifest.media_type = MEDIA_TYPE.MANIFEST_LIST →
        tag.tagged_manifest.media_type ∉ accepted →
        _get_legacy_manifest tag = none →
        get_tag version_tags tag_name path accepted =
          (.error (.pathNotResolved tag.name), 0)) := by
  have hscan : ∀ rows : List (PlatformDescriptor × ManifestCore),
      legacyScan rows =
        (rows.find? (fun pm => pm.1.architecture == "amd64" && pm.1.os == "linux")).map
          Prod.snd := by
    intro rows
    induction rows with
    | nil => rfl
    | cons head tail ih =>
      obtain ⟨pl, m⟩ := head
      by_cases h1 : pl.architecture = "amd64" <;> by_cases h2 : pl.os = "linux"
      · simp [legacyScan, List.find?, h1, h2, ih]
      · have hb : (pl.os == "linux") = false := by simp [h2]
        simp [legacyScan, List.find?, h1, h2, hb, ih]
      · have hb : (pl.architecture == "amd64") = false := by simp [h1]
        simp [legacyScan, List.find?, h1, h2, hb, ih]
      · have hb1 : (pl.architecture == "amd64") = false := by simp [h1]
        have hb2 : (pl.os == "linux") = false := by simp [h2]
        simp [legacyScan, List.find?, h1, h2, hb1, hb2, ih]
  refine ⟨hscan, ?_, ?_⟩
  · intro tag m hm
    rw [_get_legacy_manifest, hscan] at hm
    obtain ⟨pm, hfind, hsnd⟩ := Option.map_eq_some'.mp hm
    have hmem := List.mem_of_find?_eq_some hfind
    have hp := List.find?_some hfind
    simp only [Bool.and_eq_true, beq_iff_eq] at hp
    exact ⟨pm, hmem, hp.1, hp.2, hsnd⟩
  · intro version_tags tag_name path accepted tag hfilter hm hna hleg
    have hna' : MEDIA_TYPE.MANIFEST_LIST ∉ accepted := by rw [← hm]; exact hna
    rw [get_tag_eq_resolved version_tags tag_name path accepted tag hfilter]
    simp [get_tag_resolved, hm, list_ne_v1, list_ne_v2, hna', _convert_manifest, hleg]

/-- C6 witness: the selection theorem applied to the concrete
amd64/linux-less manifest list: `get_tag` answers `PathNotResolved`. -/
theorem manifest_list_child_selection_witness :
    [tagListNoAmdFix].filter (fun t => t.name == "v") = [tagListNoAmdFix]
    ∧ tagListNoAmdFix.tagged_manifest.media_type = MEDIA_TYPE.MANIFEST_LIST
    ∧ tagListNoAmdFix.tagged_manifest.media_type ∉ ([] : List String)
    ∧ _get_legacy_manifest tagListNoAmdFix = none
    ∧ get_tag [tagListNoAmdFix] "v" "p" [] = (.error (.pathNotResolved "v"), 0) :=
  ⟨by decide, rfl, by decide, rfl,
   manifest_list_child_selection.2.2 [tagListNoAmdFix] "v" "p" [] tagListNoAmdFix
     (by decide) rfl (by decide) rfl⟩

/-- C9: when the selected amd64/linux child of a tagged manifest-list is
served without conversion (its media type is accepted, or it is not
Schema-2), the response's Content-Type is the signed Schema-1 media type
regardless of the child's actual media type, and Docker-Content-Digest is
the child manifest's digest (not the list's). -/
theorem legacy_child_served_headers
    (version_tags : List Tag) (tag_name path : String) (accepted : List String)
    (tag : Tag) (m : ManifestCore) (a : Artifact ManifestDoc)
    (hfilter : version_tags.filter (fun t => t.name == tag_name) = [tag])
    (hm : tag.tagged_manifest.media_type = MEDIA_TYPE.MANIFEST_LIST)
    (hna : tag.tagged_manifest.media_type ∉ accepted)
    (hleg : _get_legacy_manifest tag = some m)
    (hnc : ¬ (m.media_type = MEDIA_TYPE.MANIFEST_V2 ∧ m.media_type ∉ accepted))
    (hart : m.artifacts = [a]) :
    get_tag version_tags tag_name path accepted =
      (.ok (.fileResponse a.file (full_headers
        ⟨MEDIA_TYPE.MANIFEST_V1_SIGNED, some m.digest⟩ a.file)), 0) := by
  have hna' : MEDIA_TYPE.MANIFEST_LIST ∉ accepted := by rw [← hm]; exact hna
  rw [get_tag_eq_resolved version_tags tag_name path accepted tag hfilter]
  simp [get_tag_resolved, hm, list_ne_v1, list_ne_v2, hna', _convert_manifest, hleg,
    if_neg hnc, pythonTruthy, dispatch_tag_schema, dispatch_tag_manifest, hart]

/-- C9 witness: the headers theorem applied to a manifest list whose
amd64/linux child is already Schema-1: the child is served with the
signed Schema-1 Content-Type and its own digest, which differs from the
list's digest. -/
theorem legacy_child_served_headers_witness :
    [tagListS1Fix].filter (fun t => t.name == "w") = [tagListS1Fix]
    ∧ tagListS1Fix.tagged_manifest.media_type = MEDIA_TYPE.MANIFEST_LIST
    ∧ tagListS1Fix.tagged_manifest.media_type ∉ ([] : List String)
    ∧ _get_legacy_manifest tagListS1Fix = some s1ChildFix
    ∧ ¬ (s1ChildFix.media_type = MEDIA_TYPE.MANIFEST_V2
          ∧ s1ChildFix.media_type ∉ ([] : List String))
    ∧ s1ChildFix.digest ≠ tagListS1Fix.tagged_manifest.digest
    ∧ get_tag [tagListS1Fix] "w" "p" [] =
        (.ok (.fileResponse ⟨"cfile", "cbytes"⟩ (full_headers
          ⟨MEDIA_TYPE.MANIFEST_V1_SIGNED, some s1ChildFix.digest⟩ ⟨"cfile", "cbytes"⟩)), 0) :=
  ⟨by decide, rfl, by decide, rfl, by decide, by decide,
   legacy_child_served_headers [tagListS1Fix] "w" "p" [] tagListS1Fix s1ChildFix
     ⟨⟨"cfile", "cbytes"⟩, none⟩ (by decide) rfl (by decide) rfl (by decide) rfl⟩

/-- C3 counterexample: for the same stored unsigned Schema-1 manifest and
the same (empty) accepted media types, the by-tag handler forces the
signed Schema-1 Content-Type while the by-digest handler answers with the
stored unsigned media type — the Schema-1 legacy-signing dispatch rule
does not apply to requests by digest. -/
theorem get_by_digest_no_negotiation_counterexample :
    (get_by_digest [caV1Fix] [1] "p" "dd").toOption.map Response.contentType
      = some (some MEDIA_TYPE.MANIFEST_V1)
    ∧ (get_tag [tagV1Fix] "t" "p" []).1.toOption.map Response.contentType
      = some (some MEDIA_TYPE.MANIFEST_V1_SIGNED)
    ∧ MEDIA_TYPE.MANIFEST_V1 ≠ MEDIA_TYPE.MANIFEST_V1_SIGNED := by
  refine ⟨by decide, by decide, by decide⟩

/-- C3 (amended): `get_by_digest` performs no media-type negotiation and
never converts: a resolved row with a local artifact is served directly
with Content-Type equal to the stored content's media type (never forced
to the signed Schema-1 type) and Docker-Content-Digest equal to its
stored digest, while a remote-only row is relayed through a bare
`StreamResponse` carrying neither header; the client's accepted media
types are never consulted. -/
theorem get_by_digest_serves_stored_media_type
    (content_artifacts : List ContentArtifact) (version_content : List Nat)
    (path digest_match : String) (ca : ContentArtifact)
    (hfilter : content_artifacts.filter
        (fun c => version_content.contains c.content_pk
                  && c.relative_path == ("sha256:" ++ digest_match)) = [ca]) :
    (∀ a : StoredFile, ca.artifact = some a →
      get_by_digest content_artifacts version_content path digest_match =
        .ok (.fileResponse a (full_headers
          ⟨ca.content_media_type, some ca.content_digest⟩ a)))
    ∧ (ca.artifact = none →
      get_by_digest content_artifacts version_content path digest_match =
        .ok (.streamResponse ca.relative_path))
    ∧ (∃ r, get_by_digest content_artifacts version_content path digest_match = .ok r
        ∧ r.isConverted = false) := by
  obtain ⟨pk, rp, art, cmt, cdg⟩ := ca
  unfold get_by_digest
  rw [hfilter]
  refine ⟨?_, ?_, ?_⟩
  · intro a ha
    have ha' : art = some a := ha
    subst ha'
    rfl
  · intro ha
    have ha' : art = none := ha
    subst ha'
    rfl
  · cases art with
    | some artifact => exact ⟨_, rfl, rfl⟩
    | none => exact ⟨_, rfl, rfl⟩

/-- C3 witness: the amended theorem applied to a concrete local-artifact
row (served with the stored unsigned media type and digest) and to a
concrete remote-only row (bare stream relay). -/
theorem get_by_digest_serves_stored_media_type_witness :
    [caV1Fix].filter
      (fun c => [1].contains c.content_pk && c.relative_path == ("sha256:" ++ "dd"))
      = [caV1Fix]
    ∧ caV1Fix.artifact = some fileFix
    ∧ get_by_digest [caV1Fix] [1] "p" "dd" =
        .ok (.fileResponse fileFix (full_headers
          ⟨caV1Fix.content_media_type, some caV1Fix.content_digest⟩ fileFix))
    ∧ [caRemoteFix].filter
        (fun c => [3].contains c.content_pk && c.relative_path == ("sha256:" ++ "ee"))
        = [caRemoteFix]
    ∧ caRemoteFix.artifact = none
    ∧ get_by_digest [caRemoteFix] [3] "p" "ee" =
        .ok (.streamResponse caRemoteFix.relative_path) :=
  ⟨by decide, rfl,
   (get_by_digest_serves_stored_media_type [caV1Fix] [1] "p" "dd" caV1Fix
     (by decide)).1 fileFix rfl,
   by decide, rfl,
   (get_by_digest_serves_stored_media_type [caRemoteFix] [3] "p" "ee" caRemoteFix
     (by decide)).2.1 rfl⟩

/-- C7: blob resolution by digest is scoped strictly to the resolved
repository version's content set — when no row with the requested digest
path belongs to the version's content (even if rows with that digest
exist elsewhere in the system), the answer is `PathNotResolved` (404);
when the version-scoped lookup resolves uniquely, the raw stored bytes
are served directly (streamed from the local file, or relayed for
remote-only content), never a converted document. -/
theorem blob_scoped_resolution :
    (∀ (content_artifacts : List ContentArtifact) (version_content : List Nat)
        (path digest_match : String),
      (∀ ca ∈ content_artifacts,
        ca.relative_path = "sha256:" ++ digest_match →
        ¬ version_content.contains ca.content_pk = true) →
      get_by_digest content_artifacts version_content path digest_match =
        .error (.pathNotResolved path))
    ∧ (∀ (content_artifacts : List ContentArtifact) (version_content : List Nat)
        (path digest_match : String) (ca : ContentArtifact) (a : StoredFile),
      content_artifacts.filter
        (fun c => version_content.contains c.content_pk
                  && c.relative_path == ("sha256:" ++ digest_match)) = [ca] →
      ca.artifact = some a →
      get_by_digest content_artifacts version_content path digest_match =
        .ok (.fileResponse a (full_headers
          ⟨ca.content_media_type, some ca.content_digest⟩ a)))
    ∧ (∀ (content_artifacts : List ContentArtifact) (version_content : List Nat)
        (path digest_match : String) (ca : ContentArtifact),
      content_artifacts.filter
        (fun c => version_content.contains c.content_pk
                  && c.relative_path == ("sha256:" ++ digest_match)) = [ca] →
      ca.artifact = none →
      get_by_digest content_artifacts version_content path digest_match =
        .ok (.streamResponse ca.relative_path)) := by
  refine ⟨?_, ?_, ?_⟩
  · intro content_artifacts version_content path digest_match hout
    have hnil : content_artifacts.filter
        (fun c => version_content.contains c.content_pk
                  && c.relative_path == ("sha256:" ++ digest_match)) = [] := by
      apply List.filter_eq_nil_iff.mpr
      intro ca hca
      by_cases hpath : ca.relative_path = "sha256:" ++ digest_match
      · simpa [hpath] using hout ca hca hpath
      · simp [hpath]
    unfold get_by_digest
    rw [hnil]
  · intro content_artifacts version_content path digest_match ca a hfilter hart
    obtain ⟨pk, rp, art, cmt, cdg⟩ := ca
    have hart' : art = some a := hart
    subst hart'
    unfold get_by_digest
    rw [hfilter]
  · intro content_artifacts version_content path digest_match ca hfilter hart
    obtain ⟨pk, rp, art, cmt, cdg⟩ := ca
    have hart' : art = none := hart
    subst hart'
    unfold get_by_digest
    rw [hfilter]

/-- C7 witness: the scoping theorem applied to concrete states — a row
with the requested digest exists but outside the version (404), a local
row inside the version (file served), and a remote-only row inside the
version (streamed). -/
theorem blob_scoped_resolution_witness :
    (∀ ca ∈ [caOutFix], ca.relative_path = "sha256:" ++ "dd" →
      ¬ [1, 3].contains ca.content_pk = true)
    ∧ get_by_digest [caOutFix] [1, 3] "p" "dd" = .error (.pathNotResolved "p")
    ∧ [caOutFix, caV1Fix].filter
        (fun c => [1, 3].contains c.content_pk && c.relative_path == ("sha256:" ++ "dd"))
        = [caV1Fix]
    ∧ caV1Fix.artifact = some fileFix
    ∧ get_by_digest [caOutFix, caV1Fix] [1, 3] "p" "dd" =
        .ok (.fileResponse fileFix (full_headers
          ⟨caV1Fix.content_media_type, some caV1Fix.content_digest⟩ fileFix))
    ∧ caRemoteFix.artifact = none
    ∧ get_by_digest [caRemoteFix] [1, 3] "p" "ee" =
        .ok (.streamResponse caRemoteFix.relative_path) :=
  ⟨by decide,
   blob_scoped_resolution.1 [caOutFix] [1, 3] "p" "dd" (by decide),
   by decide, rfl,
   blob_scoped_resolution.2.1 [caOutFix, caV1Fix] [1, 3] "p" "dd" caV1Fix fileFix
     (by decide) rfl,
   rfl,
   blob_scoped_resolution.2.2 [caRemoteFix] [1, 3] "p" "ee" caRemoteFix
     (by decide) rfl⟩

/-- Under the name-uniqueness invariant, the version's tags filtered by a
name that some member carries yield exactly that member. -/
theorem filter_name_eq_of_unique (version_tags : List Tag) (q : String) (t : Tag)
    (huniq : tagNameUnique version_tags) (hmem : t ∈ version_tags)
    (hname : t.name = q) :
    version_tags.filter (fun u => u.name == q) = [t] := by
  induction version_tags with
  | nil => cases hmem
  | cons head tail ih =>
    simp only [tagNameUnique, List.map_cons, List.nodup_cons] at huniq
    obtain ⟨hnotin, htail⟩ := huniq
    rcases List.mem_cons.mp hmem with heq | hmemtail
    · subst heq
      have hb : (t.name == q) = true := by simp [hname]
      have hnil : tail.filter (fun u => u.name == q) = [] := by
        apply List.filter_eq_nil_iff.mpr
        intro u hu
        simp only [beq_iff_eq]
        intro hq
        exact hnotin (by rw [hname, ← hq]; exact List.mem_map_of_mem Tag.name hu)
      simp [List.filter_cons, hb, hnil]
    · have hq : ¬ head.name = q := by
        intro h
        apply hnotin
        rw [h, ← hname]
        exact List.mem_map_of_mem Tag.name hmemtail
      have hb : (head.name == q) = false := by simp [hq]
      simp only [List.filter_cons, hb, if_neg, Bool.false_eq_true, if_false]
      exact ih htail hmemtail

/-- `tag_image` on a manifest with a local artifact reduces to the
remove-then-add step. -/
theorem tag_image_eq (version_tags : List Tag) (tag : String) (manifest : Manifest)
    (artifact : Artifact ManifestDoc)
    (hhead : manifest.core.artifacts.head? = some artifact) :
    tag_image version_tags tag manifest =
      if (version_tags.filter
          (fun t => ! (t.name == tag && t.tagged_manifest != manifest))).any
            (fun t => t.name == tag && t.tagged_manifest == manifest) then
        .ok (version_tags.filter
          (fun t => ! (t.name == tag && t.tagged_manifest != manifest)))
      else
        .ok (version_tags.filter
          (fun t => ! (t.name == tag && t.tagged_manifest != manifest))
          ++ [⟨tag, manifest, [artifact.file]⟩]) := by
  unfold tag_image
  rw [hhead]

/-- C8: `tag_image` preserves the per-version tag-name uniqueness
invariant — every same-name tag pointing to a different manifest is
removed from the new version before the new tag is added, and the new
(name, manifest) tag is present — and under the invariant `get_tag`
resolves a name to the unique tag carrying it (proceeding with exactly
that tag's manifest) or answers `PathNotResolved` when no tag of the
version carries the name. -/
theorem tag_uniqueness_invariant
    (version_tags : List Tag) (tag : String) (manifest : Manifest)
    (result : List Tag) (path : String) (accepted : List String)
    (hres : tag_image version_tags tag manifest = .ok result)
    (huniq : tagNameUnique version_tags) :
    tagNameUnique result
    ∧ (∀ t ∈ version_tags, t.name = tag → t.tagged_manifest ≠ manifest → t ∉ result)
    ∧ (∃ t ∈ result, t.name = tag ∧ t.tagged_manifest = manifest)
    ∧ (∀ q, (∀ t ∈ version_tags, t.name ≠ q) →
        (get_tag version_tags q path accepted).1 = .error (.pathNotResolved q))
    ∧ (∀ q t, t ∈ version_tags → t.name = q →
        get_tag version_tags q path accepted = get_tag_resolved t path accepted) := by
  have hres45 :
      (∀ q, (∀ t ∈ version_tags, t.name ≠ q) →
        (get_tag version_tags q path accepted).1 = .error (.pathNotResolved q))
      ∧ (∀ q t, t ∈ version_tags → t.name = q →
          get_tag version_tags q path accepted = get_tag_resolved t path accepted) := by
    constructor
    · intro q hall
      have hnil : version_tags.filter (fun u => u.name == q) = [] := by
        apply List.filter_eq_nil_iff.mpr
        intro u hu
        simp only [beq_iff_eq]
        exact hall u hu
      unfold get_tag
      rw [hnil]
    · intro q t hmem hname
      exact get_tag_eq_resolved version_tags q path accepted t
        (filter_name_eq_of_unique version_tags q t huniq hmem hname)
  cases hhead : manifest.core.artifacts.head? with
  | none =>
    unfold tag_image at hres
    rw [hhead] at hres
    exact absurd hres (by simp)
  | some artifact =>
    rw [tag_image_eq version_tags tag manifest artifact hhead] at hres
    have hremnodup : tagNameUnique (version_tags.filter
        (fun t => ! (t.name == tag && t.tagged_manifest != manifest))) := by
      have hsub : ((version_tags.filter
          (fun t => ! (t.name == tag && t.tagged_manifest != manifest))).map
            Tag.name).Sublist (version_tags.map Tag.name) :=
        (List.filter_sublist version_tags).map Tag.name
      exact hsub.nodup huniq
    have hnotmem : ∀ t ∈ version_tags, t.name = tag → t.tagged_manifest ≠ manifest →
        t ∉ version_tags.filter
          (fun t => ! (t.name == tag && t.tagged_manifest != manifest)) := by
      intro t _ hname hm hmemf
      have hp := (List.mem_filter.mp hmemf).2
      simp [hname, hm] at hp
    by_cases hany : (version_tags.filter
        (fun t => ! (t.name == tag && t.tagged_manifest != manifest))).any
          (fun t => t.name == tag && t.tagged_manifest == manifest) = true
    · rw [if_pos hany] at hres
      have hr : result = version_tags.filter
          (fun t => ! (t.name == tag && t.tagged_manifest != manifest)) :=
        (Except.ok.inj hres).symm
      subst hr
      refine ⟨hremnodup, ?_, ?_, hres45.1, hres45.2⟩
      · intro t ht hname hm
        exact hnotmem t ht hname hm
      · obtain ⟨u, hu, hup⟩ := List.any_eq_true.mp hany
        simp only [Bool.and_eq_true, beq_iff_eq] at hup
        exact ⟨u, hu, hup.1, hup.2⟩
    · rw [if_neg hany] at hres
      have hr : result = version_tags.filter
          (fun t => ! (t.name == tag && t.tagged_manifest != manifest))
          ++ [⟨tag, manifest, [artifact.file]⟩] :=
        (Except.ok.inj hres).symm
      subst hr
      have hnoname : ∀ u ∈ version_tags.filter
          (fun t => ! (t.name == tag && t.tagged_manifest != manifest)),
          u.name ≠ tag := by
        intro u hu hname
        have hp := (List.mem_filter.mp hu).2
        have hum : u.tagged_manifest = manifest := by
          by_contra hne
          simp [hname, hne] at hp
        exact hany (List.any_eq_true.mpr ⟨u, hu, by simp [hname, hum]⟩)
      refine ⟨?_, ?_, ?_, hres45.1, hres45.2⟩
      · simp only [tagNameUnique, List.map_append, List.map_cons, List.map_nil]
        apply List.Nodup.append hremnodup (List.nodup_singleton tag)
        intro a ha hb
        rw [List.mem_singleton.mp hb] at ha
        obtain ⟨u, hu, huname⟩ := List.mem_map.mp ha
        exact hnoname u hu huname
      · intro t ht hname hm
        rw [List.mem_append]
        rintro (hmf | hnew)
        · exact hnotmem t ht hname hm hmf
        · rw [List.mem_singleton.mp hnew] at hm
          exact hm rfl
      · exact ⟨⟨tag, manifest, [artifact.file]⟩,
          List.mem_append_right _ (List.mem_singleton_self _), rfl, rfl⟩

/-- C8 witness: the invariant theorem applied to a concrete retagging of
"latest" from one manifest to another. -/
theorem tag_uniqueness_invariant_witness :
    tag_image [tOldAFix] "latest" mBFix = .ok [⟨"latest", mBFix, [⟨"fb", "xb"⟩]⟩]
    ∧ tagNameUnique [tOldAFix]
    ∧ (tagNameUnique [(⟨"latest", mBFix, [⟨"fb", "xb"⟩]⟩ : Tag)]
        ∧ (∀ t ∈ [tOldAFix], t.name = "latest" → t.tagged_manifest ≠ mBFix →
            t ∉ [(⟨"latest", mBFix, [⟨"fb", "xb"⟩]⟩ : Tag)])
        ∧ (∃ t ∈ [(⟨"latest", mBFix, [⟨"fb", "xb"⟩]⟩ : Tag)],
            t.name = "latest" ∧ t.tagged_manifest = mBFix)
        ∧ (∀ q, (∀ t ∈ [tOldAFix], t.name ≠ q) →
            (get_tag [tOldAFix] q "p" []).1 = .error (.pathNotResolved q))
        ∧ (∀ q t, t ∈ [tOldAFix] → t.name = q →
            get_tag [tOldAFix] q "p" [] = get_tag_resolved t "p" [])) :=
  ⟨by decide, by decide,
   tag_uniqueness_invariant [tOldAFix] "latest" mBFix
     [⟨"latest", mBFix, [⟨"fb", "xb"⟩]⟩] "p" [] (by decide) (by decide)⟩

/-- The fold of `get_accepted_media_types` from any accumulator appends
the spec-side list. -/
theorem gamt_foldl (raw_headers : List (String × String)) (acc : List String) :
    raw_headers.foldl
      (fun accepted hv =>
        if hv.1 = "Accept" then accepted ++ (splitComma hv.2).map pyStrip
        else accepted)
      acc = acc ++ acceptedSpec raw_headers := by
  induction raw_headers generalizing acc with
  | nil => simp [acceptedSpec]
  | cons head tail ih =>
    by_cases h : head.1 = "Accept"
    · have hb : (head.1 == "Accept") = true := by simp [h]
      simp [acceptedSpec, h, hb, ih, List.filter_cons]
    · have hb : (head.1 == "Accept") = false := by simp [h]
      simp [acceptedSpec, h, hb, ih, List.filter_cons]

/-- C10: `get_accepted_media_types` equals the spec-side reading — header
names are matched by exact, case-sensitive equality with `Accept`, each
matching occurrence is split on commas and trimmed, pieces are
concatenated in header-occurrence order with duplicates preserved and no
quality-value handling — and an occurrence with any other casing
contributes nothing. -/
theorem accepted_media_types_spec :
    (∀ raw_headers : List (String × String),
      get_accepted_media_types raw_headers = acceptedSpec raw_headers)
    ∧ (∀ (h v : String) (rest : List (String × String)), h ≠ "Accept" →
        get_accepted_media_types ((h, v) :: rest) = get_accepted_media_types rest) := by
  constructor
  · intro raw_headers
    have := gamt_foldl raw_headers []
    simpa [get_accepted_media_types] using this
  · intro h v rest hne
    have hb : ¬ ((h, v) : String × String).1 = "Accept" := hne
    simp [get_accepted_media_types, hb]

/-- C10 witness: the parser theorem applied to a concrete header list —
the lowercase `accept` occurrence contributes nothing, while the exact
occurrences are split, trimmed and concatenated with the duplicate and
the un-interpreted `q=0` parameter preserved. -/
theorem accepted_media_types_spec_witness :
    ("accept" ≠ "Accept")
    ∧ get_accepted_media_types [("accept", "x/y"), ("Accept", "a/b, c/d ,a/b"),
        ("Accept", "e/f;q=0")]
        = acceptedSpec [("accept", "x/y"), ("Accept", "a/b, c/d ,a/b"),
            ("Accept", "e/f;q=0")]
    ∧ get_accepted_media_types [("accept", "x/y"), ("Accept", "a/b, c/d ,a/b"),
        ("Accept", "e/f;q=0")] = ["a/b", "c/d", "a/b", "e/f;q=0"]
    ∧ get_accepted_media_types [("accept", "x/y")] = get_accepted_media_types [] :=
  ⟨by decide,
   accepted_media_types_spec.1 [("accept", "x/y"), ("Accept", "a/b, c/d ,a/b"),
     ("Accept", "e/f;q=0")],
   by decide,
   accepted_media_types_spec.2 "accept" "x/y" [] (by decide)⟩

end PulpDocker
